import Mathlib

/-!
Verification of the WeedBot actuation core (`main_pi_control.py`).

The Python program keeps one shared mutable record (`WeedBotState`) that a
detection loop and a set of web handlers mutate under a single lock.  We embed
each critical section as a pure function from state to state (plus a result
where the Python function returns one).  Wall-clock reads (`time.time()`,
`datetime.now()`) become an explicit `now : ℚ` argument; Python floats become
rationals; a JSON request value becomes `ReqVal` (missing key, present but
non-numeric, or a number).  Each definition mirrors one Python function of the
source, keeping its name.
-/

set_option maxHeartbeats 1000000
set_option maxRecDepth 10000

inductive SprayType where
  | Auto
  | Test
deriving DecidableEq, Repr

/-- One entry of `STATE.water_log`: `{'time': …, 'duration': …, 'amount': …, 'type': …}`. -/
structure LogEntry where
  time : ℚ
  duration : ℚ
  amount : ℚ
  type : SprayType
deriving DecidableEq, Repr

/-- The shared record `WeedBotState` (fields relevant to control decisions;
the frame buffer and the lock object carry no control data). -/
structure WeedBotState where
  motor_speed : ℚ
  pump_detection_duration : ℚ
  pump_off_time : ℚ
  water_per_spray_ml : ℚ
  water_tank_capacity_ml : ℚ
  current_water_level_ml : ℚ
  water_log : List LogEntry
  detection_cooldown_s : ℚ
  last_detection_time : ℚ
  motor_pause_on_detection_s : ℚ
  motor_paused_until : ℚ
  motor_paused_prev_speed : Option ℚ
deriving DecidableEq, Repr

/-- `WeedBotState.__init__` populated from `DEFAULT_CONFIG`. -/
def initState : WeedBotState where
  motor_speed := 1/5
  pump_detection_duration := 1/5
  pump_off_time := 0
  water_per_spray_ml := 10
  water_tank_capacity_ml := 200
  current_water_level_ml := 200
  water_log := []
  detection_cooldown_s := 1
  last_detection_time := 0
  motor_pause_on_detection_s := 1
  motor_paused_until := 0
  motor_paused_prev_speed := none

/-- Python's `l[-n:]`: the last `n` elements (the whole list when shorter). -/
def lastN (n : Nat) (l : List α) : List α :=
  l.drop (l.length - n)

/-- `log_water_usage(duration, type)`: checks the tank, subtracts
`water_per_spray_ml`, appends the entry and truncates the log to the last 50
entries, returning `True`; otherwise returns `False` and changes nothing. -/
def log_water_usage (now duration : ℚ) (type : SprayType) (st : WeedBotState) :
    WeedBotState × Bool :=
  let amount_sprayed := st.water_per_spray_ml
  if st.current_water_level_ml ≥ amount_sprayed then
    ({ st with
        current_water_level_ml := st.current_water_level_ml - amount_sprayed
        water_log := lastN 50 (st.water_log ++
          [{ time := now, duration := duration, amount := amount_sprayed, type := type }]) },
      true)
  else
    (st, false)

/-- `set_motor_speed(new_speed)` on an already-numeric argument: clamps to
[0,1], stores it, and cancels any temporary motor pause. -/
def set_motor_speed (new_speed : ℚ) (st : WeedBotState) : WeedBotState × Bool :=
  let s := max 0 (min 1 new_speed)
  ({ st with
      motor_speed := s
      motor_paused_prev_speed := none
      motor_paused_until := 0 },
    true)

/-- A value fetched from a JSON request body: the key may be absent, present
with a non-numeric value (so `float(…)` raises `ValueError`), or numeric. -/
inductive ReqVal where
  | missing
  | nonNumeric
  | num (q : ℚ)
deriving DecidableEq, Repr

/-- HTTP outcome of a handler: 200 vs 400. -/
inductive HResp where
  | ok
  | clientError
deriving DecidableEq, Repr

/-- `/set_speed` handler: a missing key is `None` and rejected; a non-numeric
value makes `set_motor_speed`'s `float` raise `ValueError`, so it returns
`False` and the handler rejects; a number always succeeds (clamped). -/
def handle_speed_change (req : ReqVal) (st : WeedBotState) : WeedBotState × HResp :=
  match req with
  | .missing => (st, .clientError)
  | .nonNumeric => (st, .clientError)
  | .num q =>
    let r := set_motor_speed q st
    (r.1, if r.2 then .ok else .clientError)

/-- Body of `/test_pump` once a numeric duration is at hand: clamp to
[0.1, 10.0], consume-and-log, and on success set `pump_off_time = now + duration`. -/
def pump_test_body (now d : ℚ) (st : WeedBotState) : WeedBotState × HResp :=
  let duration := max (1/10) (min 10 d)
  let r := log_water_usage now duration .Test st
  if r.2 then
    ({ r.1 with pump_off_time := now + duration }, .ok)
  else
    (r.1, .clientError)

/-- `/test_pump` handler: `data.get('duration', 1.0)` defaults a missing key
to 1.0; a non-numeric value raises `ValueError` and is rejected. -/
def handle_pump_test (now : ℚ) (req : ReqVal) (st : WeedBotState) : WeedBotState × HResp :=
  match req with
  | .missing => pump_test_body now 1 st
  | .nonNumeric => (st, .clientError)
  | .num q => pump_test_body now q st

/-- `/set_detection_duration` handler: missing key defaults to the current
value; non-numeric raises `ValueError` and is rejected; numeric values
are clamped to [0.1, 5.0]. -/
def handle_detection_duration_change (req : ReqVal) (st : WeedBotState) :
    WeedBotState × HResp :=
  match req with
  | .missing =>
    ({ st with pump_detection_duration := max (1/10) (min 5 st.pump_detection_duration) }, .ok)
  | .nonNumeric => (st, .clientError)
  | .num q =>
    ({ st with pump_detection_duration := max (1/10) (min 5 q) }, .ok)

/-- `/set_cooldown` handler: missing key defaults to the current value;
non-numeric raises `ValueError` and is rejected; numeric values are clamped
to [0.5, 30.0]. -/
def handle_cooldown_change (req : ReqVal) (st : WeedBotState) : WeedBotState × HResp :=
  match req with
  | .missing =>
    ({ st with detection_cooldown_s := max (1/2) (min 30 st.detection_cooldown_s) }, .ok)
  | .nonNumeric => (st, .clientError)
  | .num q =>
    ({ st with detection_cooldown_s := max (1/2) (min 30 q) }, .ok)

/-- `/set_water_config` handler.  Each present field is converted with
`float` and applied in order: first `water_per_spray_ml := max(0.1, …)`, then
the capacity is clamped up to 100 and, when it is below the current level,
the level is clamped down to it.  A `ValueError` on the capacity conversion
aborts after the spray volume was already written. -/
def set_water_config (sprayReq capReq : ReqVal) (st : WeedBotState) :
    WeedBotState × HResp :=
  match sprayReq with
  | .nonNumeric => (st, .clientError)
  | _ =>
    let st1 := match sprayReq with
      | .num q => { st with water_per_spray_ml := max (1/10) q }
      | _ => st
    match capReq with
    | .nonNumeric => (st1, .clientError)
    | .missing => (st1, .ok)
    | .num c =>
      let c2 := max 100 c
      let st2 := if c2 < st1.current_water_level_ml then
          { st1 with current_water_level_ml := c2 }
        else st1
      ({ st2 with water_tank_capacity_ml := c2 }, .ok)

/-- `/reset_water_level` handler: refill to capacity and clear the log. -/
def reset_water_level (st : WeedBotState) : WeedBotState :=
  { st with
      current_water_level_ml := st.water_tank_capacity_ml
      water_log := [] }

/-- The persisted configuration record: each key may be absent. -/
structure ConfigFile where
  motor_speed : Option ℚ
  pump_detection_duration : Option ℚ
  water_per_spray_ml : Option ℚ
  water_tank_capacity_ml : Option ℚ
  current_water_level_ml : Option ℚ
  detection_cooldown_s : Option ℚ
  motor_pause_on_detection_s : Option ℚ
deriving DecidableEq, Repr

/-- `load_config()` when the file exists and parses: every field is taken
from the file with `config.get(key, default)` — no clamping is applied.
The default for `current_water_level_ml` is `DEFAULT_CONFIG["water_tank_capacity_ml"]`. -/
def load_config (cfg : ConfigFile) (st : WeedBotState) : WeedBotState :=
  { st with
      motor_speed := cfg.motor_speed.getD (1/5)
      pump_detection_duration := cfg.pump_detection_duration.getD (1/5)
      water_per_spray_ml := cfg.water_per_spray_ml.getD 10
      water_tank_capacity_ml := cfg.water_tank_capacity_ml.getD 200
      current_water_level_ml := cfg.current_water_level_ml.getD 200
      detection_cooldown_s := cfg.detection_cooldown_s.getD 1
      motor_pause_on_detection_s := cfg.motor_pause_on_detection_s.getD 1 }

/-- `pause_motor_for(duration_s)`: save the current speed when no pause is
recorded yet, force the speed to 0, and extend the paused-until timestamp
with `max(motor_paused_until, now + duration_s)`. -/
def pause_motor_for (now duration_s : ℚ) (st : WeedBotState) : WeedBotState :=
  let st1 := match st.motor_paused_prev_speed with
    | none => { st with motor_paused_prev_speed := some st.motor_speed }
    | some _ => st
  { st1 with
      motor_speed := 0
      motor_paused_until := max st1.motor_paused_until (now + duration_s) }

/-- `check_and_resume_motor()`: when a pause is recorded and its time has
elapsed, restore the saved speed only if the current speed is still 0, and
clear the pause metadata either way. -/
def check_and_resume_motor (now : ℚ) (st : WeedBotState) : WeedBotState :=
  match st.motor_paused_prev_speed with
  | some prev =>
    if now > st.motor_paused_until then
      let st1 := if st.motor_speed = 0 then { st with motor_speed := prev } else st
      { st1 with
          motor_paused_prev_speed := none
          motor_paused_until := 0 }
    else st
  | none => st

/-- Lines 744-767 of `activate_pump_on_detect`, after the cooldown gate:
spray only when the pump timer has expired and water remains; on a logged
spray set the stop time and the cooldown anchor and pause the motor.  The
empty-tank branch only prints. -/
def activate_pump_after_cooldown (now : ℚ) (st : WeedBotState) : WeedBotState :=
  if now > st.pump_off_time ∧ st.current_water_level_ml > 0 then
    let r := log_water_usage now st.pump_detection_duration .Auto st
    if r.2 then
      pause_motor_for now r.1.motor_pause_on_detection_s
        { r.1 with
            pump_off_time := now + r.1.pump_detection_duration
            last_detection_time := now }
    else r.1
  else st

/-- `activate_pump_on_detect()`: the cooldown gate
`if time.time() < last_detection_time + detection_cooldown_s: return`,
then the activation logic. -/
def activate_pump_on_detect (now : ℚ) (st : WeedBotState) : WeedBotState :=
  if now < st.last_detection_time + st.detection_cooldown_s then st
  else activate_pump_after_cooldown now st

/-- The declared clamp ranges of the numeric configuration fields. -/
def config_in_range (st : WeedBotState) : Prop :=
  0 ≤ st.motor_speed ∧ st.motor_speed ≤ 1 ∧
  1/10 ≤ st.pump_detection_duration ∧ st.pump_detection_duration ≤ 5 ∧
  1/2 ≤ st.detection_cooldown_s ∧ st.detection_cooldown_s ≤ 30 ∧
  0 < st.water_per_spray_ml ∧
  100 ≤ st.water_tank_capacity_ml ∧
  0 ≤ st.current_water_level_ml ∧ st.current_water_level_ml ≤ st.water_tank_capacity_ml

instance (st : WeedBotState) : Decidable (config_in_range st) := by
  unfold config_in_range
  infer_instance

/-- `n` sequential `log_water_usage` events, the clock advancing by one
second between events. -/
def consume_seq (d : ℚ) (type : SprayType) : Nat → ℚ → WeedBotState → WeedBotState
  | 0, _, st => st
  | n + 1, now, st => consume_seq d type n (now + 1) (log_water_usage now d type st).1





/-- A 55-spray tank for the sequential-consume scenario. -/
def bigTank : WeedBotState :=
  { initState with current_water_level_ml := 600, water_tank_capacity_ml := 600 }

/-- A nearly empty tank: 5 ml left, 10 ml per spray. -/
def lowTank : WeedBotState :=
  { initState with current_water_level_ml := 5 }

/-- A state in the middle of a motor pause: speed forced to 0, the pre-pause
speed 0.2 saved, pause scheduled to end at t = 2. -/
def pausedState : WeedBotState :=
  { initState with
      motor_speed := 0
      motor_paused_prev_speed := some (1/5)
      motor_paused_until := 2 }

/-- A state whose log already holds 50 entries. -/
def fullLogState : WeedBotState :=
  { initState with
      water_log := (List.range 50).map
        (fun i => { time := (i : ℚ), duration := 1, amount := 10, type := .Test }) }

/-- A configuration file carrying an out-of-range stored cooldown. -/
def badConfigFile : ConfigFile :=
  { motor_speed := none
    pump_detection_duration := none
    water_per_spray_ml := none
    water_tank_capacity_ml := none
    current_water_level_ml := none
    detection_cooldown_s := some 100
    motor_pause_on_detection_s := none }

theorem lastN_length_le (n : Nat) (l : List α) : (lastN n l).length ≤ n := by
  simp only [lastN, List.length_drop]
  omega

theorem lastN_of_length_le (n : Nat) (l : List α) (h : l.length ≤ n) : lastN n l = l := by
  simp only [lastN]
  rw [Nat.sub_eq_zero_of_le h, List.drop_zero]

theorem map_lastN (f : α → β) (n : Nat) (l : List α) :
    (lastN n l).map f = lastN n (l.map f) := by
  simp only [lastN, List.map_drop, List.length_map]

theorem lastN_concat_getLast (n : Nat) (l : List α) (e : α) :
    (lastN (n + 1) (l ++ [e])).getLast? = some e := by
  have hle : (l ++ [e]).length - (n + 1) ≤ l.length := by
    simp only [List.length_append, List.length_singleton]
    omega
  simp only [lastN]
  rw [List.drop_append_of_le_length hle, List.getLast?_concat]

/-- `pause_motor_for` in closed form: it saves the running speed only when no
pause is recorded, zeroes the speed, and extends the deadline monotonically. -/
theorem pause_motor_for_eq (now d : ℚ) (st : WeedBotState) :
    pause_motor_for now d st =
      { st with
          motor_speed := 0
          motor_paused_prev_speed := some (st.motor_paused_prev_speed.getD st.motor_speed)
          motor_paused_until := max st.motor_paused_until (now + d) } := by
  unfold pause_motor_for
  cases h : st.motor_paused_prev_speed <;> simp [h]

/-- C1: with `current_water_level_ml` at least the configured
`water_per_spray_ml`, `log_water_usage` returns `True` and lowers the level by
exactly that amount; with the level strictly below it, it returns `False` and
leaves the whole state — level and water log included — unchanged, so no
partial consumption occurs. -/
theorem C1_tryConsume_exact (now d : ℚ) (ty : SprayType) (st : WeedBotState) :
    (st.water_per_spray_ml ≤ st.current_water_level_ml →
      (log_water_usage now d ty st).2 = true ∧
      (log_water_usage now d ty st).1.current_water_level_ml
        = st.current_water_level_ml - st.water_per_spray_ml) ∧
    (st.current_water_level_ml < st.water_per_spray_ml →
      log_water_usage now d ty st = (st, false)) := by
  constructor
  · intro h
    simp [log_water_usage, h]
  · intro h
    simp [log_water_usage, not_le.mpr h]

/-- Witness for C1: at the default state (200 ml, 10 ml per spray) the spray
succeeds and leaves 190 ml; at a 5 ml tank it fails and changes nothing. -/
theorem C1_tryConsume_exact_witness :
    ((log_water_usage 0 1 .Test initState).2 = true ∧
      (log_water_usage 0 1 .Test initState).1.current_water_level_ml
        = initState.current_water_level_ml - initState.water_per_spray_ml) ∧
    log_water_usage 0 1 .Auto lowTank = (lowTank, false) := by
  refine ⟨(C1_tryConsume_exact 0 1 .Test initState).1 ?_,
          (C1_tryConsume_exact 0 1 .Auto lowTank).2 ?_⟩
  · with_unfolding_all decide
  · with_unfolding_all decide

/-- C2: `activate_pump_on_detect` refuses with no state change whenever
`now < last_detection_time + detection_cooldown_s`; from
`now = last_detection_time + detection_cooldown_s` on (the boundary included)
the cooldown gate passes, and with the pump timer expired and enough water the
call sprays: the level drops by `water_per_spray_ml` and the cooldown anchor
becomes `now`. -/
theorem C2_cooldown_gate (now : ℚ) (st : WeedBotState) :
    (now < st.last_detection_time + st.detection_cooldown_s →
      activate_pump_on_detect now st = st) ∧
    (st.last_detection_time + st.detection_cooldown_s ≤ now →
      activate_pump_on_detect now st = activate_pump_after_cooldown now st ∧
      (st.pump_off_time < now →
        st.water_per_spray_ml ≤ st.current_water_level_ml →
        0 < st.current_water_level_ml →
        (activate_pump_on_detect now st).current_water_level_ml
          = st.current_water_level_ml - st.water_per_spray_ml ∧
        (activate_pump_on_detect now st).last_detection_time = now)) := by
  constructor
  · intro h
    simp [activate_pump_on_detect, h]
  · intro h
    have hgate : ¬ now < st.last_detection_time + st.detection_cooldown_s := not_lt.mpr h
    refine ⟨by simp [activate_pump_on_detect, hgate], ?_⟩
    intro hoff hwater hpos
    simp [activate_pump_on_detect, hgate, activate_pump_after_cooldown, hoff, hpos,
      log_water_usage, hwater, pause_motor_for_eq]

/-- A state whose last auto spray was at t = 3 with a 1 s cooldown, so the
cooldown window ends exactly at t = 4. -/
def boundaryState : WeedBotState :=
  { initState with last_detection_time := 3 }

/-- Witness for C2: with `last_detection_time = 3` and `detection_cooldown_s = 1`,
an attempt at t = 3.5 changes nothing, while the attempt exactly at the
boundary t = 4 sprays (190 ml left) and re-anchors the cooldown. -/
theorem C2_cooldown_gate_witness :
    activate_pump_on_detect (7/2) boundaryState = boundaryState ∧
    (activate_pump_on_detect 4 boundaryState).current_water_level_ml
      = boundaryState.current_water_level_ml - boundaryState.water_per_spray_ml ∧
    (activate_pump_on_detect 4 boundaryState).last_detection_time = 4 := by
  refine ⟨(C2_cooldown_gate (7/2) boundaryState).1 ?_,
          ((C2_cooldown_gate 4 boundaryState).2 ?_).2 ?_ ?_ ?_⟩
  · with_unfolding_all decide
  · with_unfolding_all decide
  · with_unfolding_all decide
  · with_unfolding_all decide
  · with_unfolding_all decide

/-- C3: `pause_motor_for` sets
`motor_paused_until = max (old motor_paused_until) (now + duration)`, hence the
deadline never decreases; in particular, from any state not already paused past
`now + 3`, pausing for 2 s at `now` and again for 2 s at `now + 1` ends the
pause exactly at `now + 3` (extension, not replacement). -/
theorem C3_pause_extends (now dur : ℚ) (st : WeedBotState) :
    (pause_motor_for now dur st).motor_paused_until
        = max st.motor_paused_until (now + dur) ∧
    st.motor_paused_until ≤ (pause_motor_for now dur st).motor_paused_until ∧
    (st.motor_paused_until ≤ now + 3 →
      (pause_motor_for (now + 1) 2 (pause_motor_for now 2 st)).motor_paused_until
        = now + 3) := by
  refine ⟨by simp [pause_motor_for_eq], ?_, ?_⟩
  · simp only [pause_motor_for_eq]
    exact le_max_left _ _
  · intro h
    simp only [pause_motor_for_eq]
    have h32 : now + 2 ≤ now + 3 := by linarith
    have h13 : now + 1 + 2 = now + 3 := by ring
    rw [h13, max_eq_right (max_le h h32)]

/-- Witness for C3: from the default (unpaused) state at t = 0, the double
pause ends at t = 3. -/
theorem C3_pause_extends_witness :
    (pause_motor_for 0 1 initState).motor_paused_until
        = max initState.motor_paused_until (0 + 1) ∧
    initState.motor_paused_until ≤ (pause_motor_for 0 1 initState).motor_paused_until ∧
    (pause_motor_for (0 + 1) 2 (pause_motor_for 0 2 initState)).motor_paused_until
        = 0 + 3 := by
  obtain ⟨h1, h2, h3⟩ := C3_pause_extends 0 1 initState
  exact ⟨h1, h2, (C3_pause_extends 0 1 initState).2.2 (by with_unfolding_all decide)⟩

/-- C4: `check_and_resume_motor` is a no-op while `now ≤ motor_paused_until`;
once `now > motor_paused_until` with a recorded pause it unconditionally clears
both pause fields and restores the saved speed exactly when the current speed
is still 0; and because a manual `set_motor_speed` clears the pause record, a
resume check after a manual speed change never restores the stale saved
speed — it leaves the state exactly as the manual change put it. -/
theorem C4_resume_semantics (now : ℚ) (st : WeedBotState) :
    (now ≤ st.motor_paused_until → check_and_resume_motor now st = st) ∧
    (∀ prev, st.motor_paused_prev_speed = some prev → st.motor_paused_until < now →
      (check_and_resume_motor now st).motor_paused_prev_speed = none ∧
      (check_and_resume_motor now st).motor_paused_until = 0 ∧
      (check_and_resume_motor now st).motor_speed
        = (if st.motor_speed = 0 then prev else st.motor_speed)) ∧
    (∀ q now2, check_and_resume_motor now2 (set_motor_speed q st).1
        = (set_motor_speed q st).1) := by
  refine ⟨?_, ?_, ?_⟩
  · intro h
    unfold check_and_resume_motor
    cases hp : st.motor_paused_prev_speed <;> simp [not_lt.mpr h]
  · intro prev hp hlt
    unfold check_and_resume_motor
    rw [hp]
    simp only [gt_iff_lt, hlt, if_true]
    by_cases hs : st.motor_speed = 0 <;> simp [hs]
  · intro q now2
    simp [check_and_resume_motor, set_motor_speed]

/-- Witness for C4: on `pausedState` (pause until t = 2, saved speed 0.2,
speed 0) a check at t = 1 changes nothing; a check at t = 3 clears the pause
fields and restores 0.2; and after a manual speed change a later check is the
identity. -/
theorem C4_resume_semantics_witness :
    check_and_resume_motor 1 pausedState = pausedState ∧
    ((check_and_resume_motor 3 pausedState).motor_paused_prev_speed = none ∧
      (check_and_resume_motor 3 pausedState).motor_paused_until = 0 ∧
      (check_and_resume_motor 3 pausedState).motor_speed
        = (if pausedState.motor_speed = 0 then (1/5 : ℚ) else pausedState.motor_speed)) ∧
    check_and_resume_motor 9 (set_motor_speed (1/2) pausedState).1
      = (set_motor_speed (1/2) pausedState).1 := by
  refine ⟨(C4_resume_semantics 1 pausedState).1 ?_,
          (C4_resume_semantics 3 pausedState).2.1 (1/5) ?_ ?_,
          (C4_resume_semantics 9 pausedState).2.2 (1/2) 9⟩
  · with_unfolding_all decide
  · with_unfolding_all decide
  · with_unfolding_all decide

/-- C5: the water log never grows past 50 entries: a log event on a log of at
most 50 entries leaves at most 50; at exactly 50 entries a successful spray
evicts the oldest entry and appends the new one at the end; and 55 sequential
successful consumes starting from an empty log leave exactly the latest 50
entries (those of sprays 6 through 55). -/
theorem C5_log_capacity (now d : ℚ) (ty : SprayType) (st : WeedBotState) :
    (st.water_log.length ≤ 50 →
      (log_water_usage now d ty st).1.water_log.length ≤ 50) ∧
    (st.water_log.length = 50 → st.water_per_spray_ml ≤ st.current_water_level_ml →
      (log_water_usage now d ty st).1.water_log
        = st.water_log.tail ++
            [{ time := now, duration := d, amount := st.water_per_spray_ml, type := ty }]) ∧
    (consume_seq 1 .Test 55 0 bigTank).water_log
      = (List.range 50).map
          (fun i => { time := (i : ℚ) + 5, duration := 1, amount := 10, type := .Test }) := by
  refine ⟨?_, ?_, ?_⟩
  · intro h
    by_cases h2 : st.water_per_spray_ml ≤ st.current_water_level_ml
    · simpa [log_water_usage, h2] using lastN_length_le 50 _
    · simpa [log_water_usage, h2] using h
  · intro hlen hw
    simp only [log_water_usage, ge_iff_le, hw, if_true]
    have h1 : (st.water_log ++
        [({ time := now, duration := d, amount := st.water_per_spray_ml, type := ty } :
          LogEntry)]).length - 50 = 1 := by
      simp [hlen]
    have h2 : (1 : Nat) ≤ st.water_log.length := by omega
    simp only [lastN, h1]
    rw [List.drop_append_of_le_length h2, List.drop_one]
  · with_unfolding_all decide

/-- Witness for C5: the default empty log stays within 50 after one event, and
on a full 50-entry log a successful spray drops the oldest entry and appends
the new one. -/
theorem C5_log_capacity_witness :
    (log_water_usage 0 1 .Test initState).1.water_log.length ≤ 50 ∧
    (log_water_usage 60 2 .Auto fullLogState).1.water_log
      = fullLogState.water_log.tail ++
          [{ time := 60, duration := 2, amount := fullLogState.water_per_spray_ml,
             type := .Auto }] := by
  refine ⟨(C5_log_capacity 0 1 .Test initState).1 ?_,
          (C5_log_capacity 60 2 .Auto fullLogState).2.1 ?_ ?_⟩
  · with_unfolding_all decide
  · with_unfolding_all decide
  · with_unfolding_all decide

/-- C6: while a spray timer is still running (`now ≤ pump_off_time`) an
auto-trigger is silently refused and changes nothing; a manual pump test under
the same condition is not gated by the running spray: with enough water it
still answers success, consumes `water_per_spray_ml`, appends its log entry,
and overwrites the single shared stop timer with `now` plus the clamped test
duration. -/
theorem C6_manual_not_gated (now d : ℚ) (st : WeedBotState) :
    (now ≤ st.pump_off_time → activate_pump_on_detect now st = st) ∧
    (st.water_per_spray_ml ≤ st.current_water_level_ml →
      (handle_pump_test now (.num d) st).2 = .ok ∧
      (handle_pump_test now (.num d) st).1.current_water_level_ml
        = st.current_water_level_ml - st.water_per_spray_ml ∧
      (handle_pump_test now (.num d) st).1.pump_off_time
        = now + max (1/10) (min 10 d) ∧
      (handle_pump_test now (.num d) st).1.water_log.getLast?
        = some { time := now, duration := max (1/10) (min 10 d),
                 amount := st.water_per_spray_ml, type := .Test }) := by
  constructor
  · intro h
    unfold activate_pump_on_detect activate_pump_after_cooldown
    have hno : ¬ (now > st.pump_off_time ∧ st.current_water_level_ml > 0) := by
      rintro ⟨h1, -⟩
      exact absurd h (not_le.mpr h1)
    split
    · rfl
    · simp [hno]
  · intro hw
    simp only [handle_pump_test, pump_test_body, log_water_usage, ge_iff_le, hw, if_true]
    refine ⟨by simp, by simp, by simp, ?_⟩
    exact lastN_concat_getLast 49 _ _

/-- Witness for C6: with the pump scheduled off at t = 5, an auto attempt at
t = 4 changes nothing, while a 2 s manual test at t = 4 succeeds, consumes
10 ml and moves the stop timer to t = 6. -/
theorem C6_manual_not_gated_witness :
    activate_pump_on_detect 4 { initState with pump_off_time := 5 }
      = { initState with pump_off_time := 5 } ∧
    ((handle_pump_test 4 (.num 2) { initState with pump_off_time := 5 }).2 = .ok ∧
      (handle_pump_test 4 (.num 2) { initState with pump_off_time := 5 }).1.current_water_level_ml
        = ({ initState with pump_off_time := 5 } : WeedBotState).current_water_level_ml
            - ({ initState with pump_off_time := 5 } : WeedBotState).water_per_spray_ml ∧
      (handle_pump_test 4 (.num 2) { initState with pump_off_time := 5 }).1.pump_off_time
        = 4 + max (1/10) (min 10 2) ∧
      (handle_pump_test 4 (.num 2) { initState with pump_off_time := 5 }).1.water_log.getLast?
        = some { time := 4, duration := max (1/10) (min 10 2),
                 amount := ({ initState with pump_off_time := 5 } : WeedBotState).water_per_spray_ml,
                 type := .Test }) := by
  refine ⟨(C6_manual_not_gated 4 2 { initState with pump_off_time := 5 }).1 ?_,
          (C6_manual_not_gated 4 2 { initState with pump_off_time := 5 }).2 ?_⟩
  · with_unfolding_all decide
  · with_unfolding_all decide

theorem config_in_range_speed_change (st : WeedBotState) (h : config_in_range st)
    (r : ReqVal) : config_in_range (handle_speed_change r st).1 := by
  obtain ⟨h1, h2, h3, h4, h5, h6, h7, h8, h9, h10⟩ := h
  cases r with
  | missing => exact ⟨h1, h2, h3, h4, h5, h6, h7, h8, h9, h10⟩
  | nonNumeric => exact ⟨h1, h2, h3, h4, h5, h6, h7, h8, h9, h10⟩
  | num q =>
    exact ⟨le_max_left _ _, max_le (by norm_num) (min_le_left _ _),
      h3, h4, h5, h6, h7, h8, h9, h10⟩

theorem config_in_range_detection_duration_change (st : WeedBotState)
    (h : config_in_range st) (r : ReqVal) :
    config_in_range (handle_detection_duration_change r st).1 := by
  obtain ⟨h1, h2, h3, h4, h5, h6, h7, h8, h9, h10⟩ := h
  cases r with
  | missing =>
    exact ⟨h1, h2, le_max_left _ _, max_le (by norm_num) (min_le_left _ _),
      h5, h6, h7, h8, h9, h10⟩
  | nonNumeric => exact ⟨h1, h2, h3, h4, h5, h6, h7, h8, h9, h10⟩
  | num q =>
    exact ⟨h1, h2, le_max_left _ _, max_le (by norm_num) (min_le_left _ _),
      h5, h6, h7, h8, h9, h10⟩

theorem config_in_range_cooldown_change (st : WeedBotState) (h : config_in_range st)
    (r : ReqVal) : config_in_range (handle_cooldown_change r st).1 := by
  obtain ⟨h1, h2, h3, h4, h5, h6, h7, h8, h9, h10⟩ := h
  cases r with
  | missing =>
    exact ⟨h1, h2, h3, h4, le_max_left _ _, max_le (by norm_num) (min_le_left _ _),
      h7, h8, h9, h10⟩
  | nonNumeric => exact ⟨h1, h2, h3, h4, h5, h6, h7, h8, h9, h10⟩
  | num q =>
    exact ⟨h1, h2, h3, h4, le_max_left _ _, max_le (by norm_num) (min_le_left _ _),
      h7, h8, h9, h10⟩

theorem config_in_range_water_config (st : WeedBotState) (h : config_in_range st)
    (r1 r2 : ReqVal) : config_in_range (set_water_config r1 r2 st).1 := by
  obtain ⟨h1, h2, h3, h4, h5, h6, h7, h8, h9, h10⟩ := h
  have hspray : ∀ q : ℚ, (0 : ℚ) < max (1/10) q :=
    fun q => lt_of_lt_of_le (by norm_num) (le_max_left _ _)
  have hcap : ∀ c : ℚ, (100 : ℚ) ≤ max 100 c := fun c => le_max_left _ _
  have hcap0 : ∀ c : ℚ, (0 : ℚ) ≤ max 100 c :=
    fun c => le_trans (by norm_num) (le_max_left _ _)
  cases r1 with
  | nonNumeric => exact ⟨h1, h2, h3, h4, h5, h6, h7, h8, h9, h10⟩
  | missing =>
    cases r2 with
    | missing => exact ⟨h1, h2, h3, h4, h5, h6, h7, h8, h9, h10⟩
    | nonNumeric => exact ⟨h1, h2, h3, h4, h5, h6, h7, h8, h9, h10⟩
    | num c =>
      simp only [set_water_config]
      split
      · exact ⟨h1, h2, h3, h4, h5, h6, h7, hcap c, hcap0 c, le_refl _⟩
      · next hge => exact ⟨h1, h2, h3, h4, h5, h6, h7, hcap c, h9, not_lt.mp hge⟩
  | num q =>
    cases r2 with
    | missing => exact ⟨h1, h2, h3, h4, h5, h6, hspray q, h8, h9, h10⟩
    | nonNumeric => exact ⟨h1, h2, h3, h4, h5, h6, hspray q, h8, h9, h10⟩
    | num c =>
      simp only [set_water_config]
      split
      · exact ⟨h1, h2, h3, h4, h5, h6, hspray q, hcap c, hcap0 c, le_refl _⟩
      · next hge => exact ⟨h1, h2, h3, h4, h5, h6, hspray q, hcap c, h9, not_lt.mp hge⟩

theorem config_in_range_pump_test_body (st : WeedBotState) (h : config_in_range st)
    (now d : ℚ) : config_in_range (pump_test_body now d st).1 := by
  obtain ⟨h1, h2, h3, h4, h5, h6, h7, h8, h9, h10⟩ := h
  by_cases hw : st.water_per_spray_ml ≤ st.current_water_level_ml
  · have hpos : 0 ≤ st.current_water_level_ml - st.water_per_spray_ml :=
      sub_nonneg.mpr hw
    have hle : st.current_water_level_ml - st.water_per_spray_ml
        ≤ st.water_tank_capacity_ml :=
      le_trans (sub_le_self _ (le_of_lt h7)) h10
    simp only [pump_test_body, log_water_usage, ge_iff_le, hw, if_true]
    exact ⟨h1, h2, h3, h4, h5, h6, h7, h8, hpos, hle⟩
  · simp only [pump_test_body, log_water_usage, ge_iff_le, hw, if_false]
    exact ⟨h1, h2, h3, h4, h5, h6, h7, h8, h9, h10⟩

theorem config_in_range_pump_test (st : WeedBotState) (h : config_in_range st)
    (now : ℚ) (r : ReqVal) : config_in_range (handle_pump_test now r st).1 := by
  cases r with
  | missing => exact config_in_range_pump_test_body st h now 1
  | nonNumeric => exact h
  | num q => exact config_in_range_pump_test_body st h now q

/-- C7 counterexample: `load_config` applies no clamping, so loading a stored
`detection_cooldown_s` of 100 leaves that field at 100, outside its declared
range [0.5, 30] — a configuration-load write does not restore the clamp
invariant. -/
theorem C7_load_not_clamped_counterexample :
    (load_config badConfigFile initState).detection_cooldown_s = 100 ∧
    ¬ config_in_range (load_config badConfigFile initState) := by
  constructor
  · with_unfolding_all decide
  · with_unfolding_all decide

/-- C7 amended: after any write through the control-surface setters — speed,
detection duration, cooldown, water config, pump test, tank reset — every
numeric config field lies within its declared clamp range; the configuration
load at process start, however, assigns stored values unclamped and so does
not guarantee the ranges. -/
theorem C7_setters_keep_ranges (st : WeedBotState) (h : config_in_range st)
    (now : ℚ) (r1 r2 r3 r4 r5 r6 : ReqVal) :
    config_in_range (handle_speed_change r1 st).1 ∧
    config_in_range (handle_detection_duration_change r2 st).1 ∧
    config_in_range (handle_cooldown_change r3 st).1 ∧
    config_in_range (set_water_config r4 r5 st).1 ∧
    config_in_range (handle_pump_test now r6 st).1 ∧
    config_in_range (reset_water_level st) := by
  obtain ⟨h1, h2, h3, h4, h5, h6, h7, h8, h9, h10⟩ := h
  refine ⟨config_in_range_speed_change st ?_ r1,
    config_in_range_detection_duration_change st ?_ r2,
    config_in_range_cooldown_change st ?_ r3,
    config_in_range_water_config st ?_ r4 r5,
    config_in_range_pump_test st ?_ now r6,
    ⟨h1, h2, h3, h4, h5, h6, h7, h8, le_trans (by norm_num) h8, le_refl _⟩⟩ <;>
  exact ⟨h1, h2, h3, h4, h5, h6, h7, h8, h9, h10⟩

/-- Witness for C7 amended: the default state satisfies the ranges and a batch
of concrete setter calls keeps them. -/
theorem C7_setters_keep_ranges_witness :
    config_in_range (handle_speed_change (.num 7) initState).1 ∧
    config_in_range (handle_detection_duration_change (.num 9) initState).1 ∧
    config_in_range (handle_cooldown_change (.num 50) initState).1 ∧
    config_in_range (set_water_config (.num 0) (.num 50) initState).1 ∧
    config_in_range (handle_pump_test 0 .missing initState).1 ∧
    config_in_range (reset_water_level initState) :=
  C7_setters_keep_ranges initState (by with_unfolding_all decide) 0
    (.num 7) (.num 9) (.num 50) (.num 0) (.num 50) .missing

/-- C8 counterexample: a `/test_pump` request with the `duration` key missing
is not rejected: the handler defaults it to 1.0 s, answers success, and
consumes 10 ml of water — a missing field does change the state. -/
theorem C8_missing_field_not_rejected :
    (handle_pump_test 0 .missing initState).2 = .ok ∧
    (handle_pump_test 0 .missing initState).1.current_water_level_ml = 190 := by
  constructor
  · with_unfolding_all decide
  · with_unfolding_all decide

/-- C8 amended: out-of-range numeric values are clamped rather than rejected
(a numeric cooldown, detection duration or speed always succeeds with the
clamped value, and a pump test behaves exactly as with the clamped duration).
A present non-numeric value is rejected with the caller informed, and for the
speed, cooldown, detection-duration and pump-test handlers — and for the
water-config handler when the spray field itself is bad or absent — the state
is unchanged; the one exception is the water-config handler with a numeric
spray volume and a non-numeric capacity: it writes the clamped spray volume
before the capacity conversion fails, so that rejection leaves the state
changed.  A missing field is rejected only by the speed handler: the pump
test defaults it to 1.0 s and proceeds, the detection-duration and cooldown
handlers default it to the current value and report success, and the
water-config handler skips the field. -/
theorem C8_clamp_reject_default (now q : ℚ) (r : ReqVal) (st : WeedBotState) :
    (handle_cooldown_change (.num q) st
        = ({ st with detection_cooldown_s := max (1/2) (min 30 q) }, .ok)) ∧
    (handle_detection_duration_change (.num q) st
        = ({ st with pump_detection_duration := max (1/10) (min 5 q) }, .ok)) ∧
    (handle_speed_change (.num q) st
        = ({ st with
              motor_speed := max 0 (min 1 q)
              motor_paused_prev_speed := none
              motor_paused_until := 0 }, .ok)) ∧
    (handle_pump_test now (.num q) st
        = handle_pump_test now (.num (max (1/10) (min 10 q))) st) ∧
    (handle_cooldown_change .nonNumeric st = (st, .clientError)) ∧
    (handle_detection_duration_change .nonNumeric st = (st, .clientError)) ∧
    (handle_pump_test now .nonNumeric st = (st, .clientError)) ∧
    (handle_speed_change .nonNumeric st = (st, .clientError)) ∧
    (set_water_config .nonNumeric r st = (st, .clientError)) ∧
    (set_water_config .missing .nonNumeric st = (st, .clientError)) ∧
    (set_water_config (.num q) .nonNumeric st
        = ({ st with water_per_spray_ml := max (1/10) q }, .clientError)) ∧
    (handle_cooldown_change .missing st
        = handle_cooldown_change (.num st.detection_cooldown_s) st) ∧
    (handle_detection_duration_change .missing st
        = handle_detection_duration_change (.num st.pump_detection_duration) st) ∧
    (handle_pump_test now .missing st = handle_pump_test now (.num 1) st) ∧
    (set_water_config .missing .missing st = (st, .ok)) ∧
    (handle_speed_change .missing st = (st, .clientError)) := by
  have hclamp : max (1/10 : ℚ) (min 10 (max (1/10) (min 10 q))) = max (1/10) (min 10 q) := by
    have hub : max (1/10 : ℚ) (min 10 q) ≤ 10 := max_le (by norm_num) (min_le_left _ _)
    rw [min_eq_right hub, ← max_assoc, max_self]
  refine ⟨rfl, rfl, rfl, ?_, rfl, rfl, rfl, rfl, ?_, rfl, rfl, rfl, rfl, rfl, rfl, rfl⟩
  · simp only [handle_pump_test, pump_test_body, hclamp]
  · cases r <;> rfl

/-- C9 counterexample: `setWaterConfig(capacityMl = 50)` at level 200 does
not leave the level at 50. -/
theorem C9_shrink_to_50_counterexample :
    (set_water_config .missing (.num 50) initState).1.current_water_level_ml ≠ 50 := by
  with_unfolding_all decide

/-- C9 amended: the requested capacity is first clamped up to 100 and only
then compared with the level, so the level afterwards is
`min level (max 100 capacity)`: with capacity 50 requested at level 200, the
capacity and the level both end at 100, not 50. -/
theorem C9_shrink_amended (st : WeedBotState) (c : ℚ) :
    (set_water_config .missing (.num c) st).1.water_tank_capacity_ml = max 100 c ∧
    (set_water_config .missing (.num c) st).1.current_water_level_ml
        = min st.current_water_level_ml (max 100 c) ∧
    (set_water_config .missing (.num 50) initState).1.water_tank_capacity_ml = 100 ∧
    (set_water_config .missing (.num 50) initState).1.current_water_level_ml = 100 := by
  refine ⟨by simp [set_water_config], ?_, by with_unfolding_all decide,
    by with_unfolding_all decide⟩
  simp only [set_water_config]
  split
  · next hlt => simp [min_eq_right (le_of_lt hlt)]
  · next hge => simp [min_eq_left (not_lt.mp hge)]

/-- C10: every successful spray — Auto or Test, whatever its duration —
deducts exactly the configured `water_per_spray_ml` and records that amount in
its log entry; the duration argument influences only the log entry's duration
field (and, for a pump test, the stop timer), never the volume consumed: two
sprays of different durations leave the same level and, durations erased, the
same log. -/
theorem C10_volume_duration_independent (now d1 d2 : ℚ) (ty1 ty2 : SprayType)
    (st : WeedBotState) (h : st.water_per_spray_ml ≤ st.current_water_level_ml) :
    (log_water_usage now d1 ty1 st).1.current_water_level_ml
        = st.current_water_level_ml - st.water_per_spray_ml ∧
    (log_water_usage now d1 ty1 st).1.water_log.getLast?
        = some { time := now, duration := d1, amount := st.water_per_spray_ml, type := ty1 } ∧
    (log_water_usage now d1 ty1 st).1.current_water_level_ml
        = (log_water_usage now d2 ty2 st).1.current_water_level_ml ∧
    ((log_water_usage now d1 ty1 st).1.water_log.map (fun e => { e with duration := 0 }))
        = ((log_water_usage now d2 ty1 st).1.water_log.map (fun e => { e with duration := 0 })) ∧
    { (log_water_usage now d1 ty1 st).1 with water_log := [] }
        = { (log_water_usage now d2 ty1 st).1 with water_log := [] } ∧
    (handle_pump_test now (.num d1) st).1.current_water_level_ml
        = st.current_water_level_ml - st.water_per_spray_ml := by
  refine ⟨by simp [log_water_usage, h], ?_, by simp [log_water_usage, h], ?_,
    by simp [log_water_usage, h], by simp [handle_pump_test, pump_test_body, log_water_usage, h]⟩
  · simp only [log_water_usage, ge_iff_le, h, if_true]
    exact lastN_concat_getLast 49 _ _
  · simp only [log_water_usage, ge_iff_le, h, if_true, map_lastN, List.map_append,
      List.map_cons, List.map_nil]

/-- Witness for C10: at the default state, a 10 s Test spray and a 0.2 s Auto
spray behave identically apart from the recorded duration. -/
theorem C10_volume_duration_independent_witness :
    (log_water_usage 0 10 .Test initState).1.current_water_level_ml
        = initState.current_water_level_ml - initState.water_per_spray_ml ∧
    (log_water_usage 0 10 .Test initState).1.water_log.getLast?
        = some { time := 0, duration := 10, amount := initState.water_per_spray_ml,
                 type := .Test } ∧
    (log_water_usage 0 10 .Test initState).1.current_water_level_ml
        = (log_water_usage 0 (1/5) .Auto initState).1.current_water_level_ml ∧
    ((log_water_usage 0 10 .Test initState).1.water_log.map (fun e => { e with duration := 0 }))
        = ((log_water_usage 0 (1/5) .Test initState).1.water_log.map
            (fun e => { e with duration := 0 })) ∧
    { (log_water_usage 0 10 .Test initState).1 with water_log := [] }
        = { (log_water_usage 0 (1/5) .Test initState).1 with water_log := [] } ∧
    (handle_pump_test 0 (.num 10) initState).1.current_water_level_ml
        = initState.current_water_level_ml - initState.water_per_spray_ml :=
  C10_volume_duration_independent 0 10 (1/5) .Test .Auto initState
    (by with_unfolding_all decide)
